import Mathlib

/-!
Verification development for the Amplify GraphQL transformer repository.

The repository's source sample contains: the searchable-transformer constants,
the `AmplifyGraphqlApi` L3 construct (with its stack-uniqueness and environment
name validations), transformer-core re-exports, and the auth/model transformer
test suites whose expected resolver keys (`Query.getPost.auth.1.req.vtl`, ...)
pin down the observable behaviour of the transformation pipeline.

The transformation pipeline itself (schema document model, directive validation,
the resolver/resource accumulator with `addPipelineEntry`/`finalize`, and the
pipeline orchestrator) is not part of the source sample, so those components are
modelled from the specification, with the slot numbering of the accumulator
fixed by the resolver keys the in-repo tests demand.
-/

/-! ## Resolver/Resource Accumulator -/

/-- A rendered logic-template fragment contributed to a resolver pipeline slot.
`referencedFields` records which schema fields the authorization logic reads
(e.g. the owner field of an owner-based auth rule); `text` is the rendered
template body. -/
structure LogicTemplate where
  referencedFields : List String
  text : String
deriving DecidableEq, Repr

/-- One entry of the resolver pipeline accumulator: a contribution by
`contributorId` to the (typeName, fieldName, stage) pipeline, at `slot`. -/
structure AccEntry where
  typeName : String
  fieldName : String
  stage : String
  slot : Nat
  contributorId : String
  logic : LogicTemplate
deriving DecidableEq, Repr

/-- Does an accumulator entry belong to the (t, f, s) pipeline? -/
def matchesKey (t f s : String) (e : AccEntry) : Bool :=
  decide (e.typeName = t ∧ e.fieldName = f ∧ e.stage = s)

/-- Number of entries already contributed to the (t, f, s) pipeline. -/
def countFor (acc : List AccEntry) (t f s : String) : Nat :=
  (acc.filter (matchesKey t f s)).length

/-- The slot indices of the (t, f, s) pipeline, in contribution order. -/
def slotsFor (acc : List AccEntry) (t f s : String) : List Nat :=
  ((acc.filter (matchesKey t f s)).map AccEntry.slot)

/-- Modelled from the spec: `addPipelineEntry` of the Resolver/Resource
Accumulator (spec section 4.5), whose implementation is not under `src/`.
It appends a contribution for (t, f, s) and returns the assigned slot index.
The slot index assigned is one more than the number of entries already present
for that (t, f, s): the in-repo tests expect the first (and only) auth
contribution of each query field to surface as `....auth.1.req.vtl`, so slot
numbering is 1-based, not 0-based as the spec text says. -/
def addPipelineEntry (acc : List AccEntry) (t f s contributorId : String)
    (logic : LogicTemplate) : List AccEntry × Nat :=
  let slot := countFor acc t f s + 1
  (acc ++ [⟨t, f, s, slot, contributorId, logic⟩], slot)

/-- A request made by some transformer to contribute logic to a pipeline. -/
structure SlotRequest where
  typeName : String
  fieldName : String
  stage : String
  contributorId : String
  logic : LogicTemplate
deriving DecidableEq, Repr

/-- Feed a list of contribution requests through `addPipelineEntry`,
starting from an empty accumulator. -/
def runRequests (reqs : List SlotRequest) : List AccEntry :=
  reqs.foldl
    (fun acc r => (addPipelineEntry acc r.typeName r.fieldName r.stage r.contributorId r.logic).1)
    []

/-- Modelled from the spec: the single serialization function from the
structured resolver key (Type, field, stage, slot) to the wire string
`Type.field.stage.slotIndex.req.vtl` (spec sections 4.5 and 6), matching the
resolver keys expected by the in-repo tests. -/
def serializeKey (t f s : String) (slot : Nat) : String :=
  t ++ "." ++ f ++ "." ++ s ++ "." ++ toString slot ++ ".req.vtl"

/-- Modelled from the spec: `finalize` of the Resolver/Resource Accumulator
(spec section 4.5), not under `src/`: serializes every accumulated entry into
the resolver map. Entries of each (t, f, s) pipeline sit in the accumulator in
ascending slot order (slots are assigned in increasing order and entries are
appended), so the emitted map lists slots ascending. -/
def finalize (acc : List AccEntry) : List (String × String) :=
  acc.map (fun e => (serializeKey e.typeName e.fieldName e.stage e.slot, e.logic.text))

/-! ### Slot assignment invariant -/

/-- The accumulator invariant: for every pipeline (t, f, s), the recorded slots
are exactly 1, 2, ..., n in order, where n is the number of entries. -/
def SlotInv (acc : List AccEntry) : Prop :=
  ∀ t f s, slotsFor acc t f s = List.range' 1 (countFor acc t f s)

theorem slotInv_nil : SlotInv [] := by
  intro t f s
  simp [slotsFor, countFor]

theorem countFor_append (acc₁ acc₂ : List AccEntry) (t f s : String) :
    countFor (acc₁ ++ acc₂) t f s = countFor acc₁ t f s + countFor acc₂ t f s := by
  simp [countFor, List.filter_append]

theorem slotsFor_append (acc₁ acc₂ : List AccEntry) (t f s : String) :
    slotsFor (acc₁ ++ acc₂) t f s = slotsFor acc₁ t f s ++ slotsFor acc₂ t f s := by
  simp [slotsFor, List.filter_append]

theorem slotInv_add (acc : List AccEntry) (t₀ f₀ s₀ c : String) (lg : LogicTemplate)
    (h : SlotInv acc) : SlotInv (addPipelineEntry acc t₀ f₀ s₀ c lg).1 := by
  intro t f s
  have hentry : (addPipelineEntry acc t₀ f₀ s₀ c lg).1 =
      acc ++ [⟨t₀, f₀, s₀, countFor acc t₀ f₀ s₀ + 1, c, lg⟩] := rfl
  rw [hentry, slotsFor_append, countFor_append, h t f s]
  by_cases hm : t₀ = t ∧ f₀ = f ∧ s₀ = s
  · obtain ⟨ht, hf, hs⟩ := hm
    subst ht; subst hf; subst hs
    have h1 : slotsFor [⟨t₀, f₀, s₀, countFor acc t₀ f₀ s₀ + 1, c, lg⟩] t₀ f₀ s₀
        = [countFor acc t₀ f₀ s₀ + 1] := by
      simp [slotsFor, matchesKey]
    have h2 : countFor [⟨t₀, f₀, s₀, countFor acc t₀ f₀ s₀ + 1, c, lg⟩] t₀ f₀ s₀ = 1 := by
      simp [countFor, matchesKey]
    rw [h1, h2, List.range'_concat]
    simp [Nat.add_comm]
  · have h1 : slotsFor [⟨t₀, f₀, s₀, countFor acc t₀ f₀ s₀ + 1, c, lg⟩] t f s = [] := by
      simp [slotsFor, matchesKey, hm]
    have h2 : countFor [⟨t₀, f₀, s₀, countFor acc t₀ f₀ s₀ + 1, c, lg⟩] t f s = 0 := by
      simp [countFor, matchesKey, hm]
    rw [h1, h2]
    simp

theorem slotInv_runRequests (reqs : List SlotRequest) : SlotInv (runRequests reqs) := by
  have general : ∀ (rs : List SlotRequest) (acc : List AccEntry), SlotInv acc →
      SlotInv (rs.foldl
        (fun a r => (addPipelineEntry a r.typeName r.fieldName r.stage r.contributorId r.logic).1)
        acc) := by
    intro rs
    induction rs with
    | nil => intro acc hacc; exact hacc
    | cons r rs ih =>
      intro acc hacc
      exact ih _ (slotInv_add acc r.typeName r.fieldName r.stage r.contributorId r.logic hacc)
  exact general reqs [] slotInv_nil

/-! ## Schema document model

Modelled from the spec (section 3): the typed representation of an annotated
GraphQL SDL document, restricted to what the transformation claims exercise.
The schema document model implementation is not under `src/`. -/

/-- One `@auth` rule: the `allow` strategy plus the optional `ownerField`,
`groupsField`, static `groups` and `provider` arguments, as used by the
in-repo auth transformer tests. -/
structure AuthRule where
  allow : String
  ownerField : Option String
  groupsField : Option String
  groups : List String
  provider : Option String
deriving DecidableEq, Repr

/-- A directive attached to a type: its name, and its `@auth` rules when the
directive is `auth` (other directives modelled here carry no arguments). -/
structure Directive where
  name : String
  rules : List AuthRule
deriving DecidableEq, Repr

/-- A field of an object type: name, referenced type, list/non-null wrapping. -/
structure FieldDef where
  name : String
  typeRef : String
  isList : Bool
  nonNull : Bool
deriving DecidableEq, Repr

/-- An object type definition of the schema document. -/
structure TypeDef where
  name : String
  fields : List FieldDef
  directives : List Directive
deriving DecidableEq, Repr

/-- Is the type annotated `@model`? -/
def TypeDef.hasModel (ty : TypeDef) : Bool :=
  ty.directives.any (fun d => d.name == "model")

/-- The `@auth` rules attached to the type (empty when not annotated). -/
def TypeDef.typeAuthRules (ty : TypeDef) : List AuthRule :=
  (ty.directives.filter (fun d => d.name == "auth")).flatMap Directive.rules

/-- Modelled from the spec: a `DataSourceStrategy` descriptor (section 3), as
supplied by the in-repo tests (`dbType: 'MySQL', provisionDB: false`). -/
structure DataSourceStrategy where
  dbType : String
  provisionDB : Bool
deriving DecidableEq, Repr

/-- The full input of one transformation run (spec section 6): schema,
registered directive names, model-to-datasource strategy mapping, and the
default authentication provider of the auth configuration. -/
structure TransformInput where
  schema : List TypeDef
  registeredDirectives : List String
  modelToDatasourceMap : List (String × DataSourceStrategy)
  defaultAuthentication : String
deriving DecidableEq, Repr

/-! ## Model transformer query-field naming

Modelled from the spec: the model transformer (not under `src/`) adds
`get<Type>` and `list<Plural>` query fields for each `@model` type; the
pluralization leaves an already-plural name unchanged, matching every name in
the in-repo tests (Post to listPosts, PostOwners to listPostOwners,
PostPrivate to listPostPrivates). -/

/-- Pluralize a type name: names already ending in `s` stay unchanged. -/
def pluralize (s : String) : String :=
  if s.data.getLast? = some 's' then s else s ++ "s"

/-- Name of the get query generated for a model type. -/
def getQueryName (typeName : String) : String := "get" ++ typeName

/-- Name of the list query generated for a model type. -/
def listQueryName (typeName : String) : String := "list" ++ pluralize typeName

/-- The query field names generated for one model type. -/
def queryFieldsForModel (ty : TypeDef) : List String :=
  [getQueryName ty.name, listQueryName ty.name]

/-! ## Auth transformer logic generation

Modelled from the spec: the auth transformer (not under `src/`) renders, for
each query field of a `@model` type carrying `@auth` rules, an authorization
logic template per stage (`auth`, `postAuth`). An owner rule references the
field named by `ownerField`, defaulting to `owner`; a dynamic groups rule
references its `groupsField`. -/

/-- The owner field an owner rule reads: `ownerField` argument or default. -/
def ownerFieldOf (r : AuthRule) : String := r.ownerField.getD "owner"

/-- The schema fields referenced by the rendered auth logic of a rule list. -/
def referencedFieldsOfRules (rules : List AuthRule) : List String :=
  rules.flatMap fun r =>
    if r.allow == "owner" then [ownerFieldOf r]
    else match r.groupsField with
      | some g => if r.allow == "groups" then [g] else []
      | none => []

/-- Render one auth rule as template text. -/
def renderRule (r : AuthRule) : String :=
  if r.allow == "owner" then "#authRule(owner on field " ++ ownerFieldOf r ++ ")"
  else "#authRule(" ++ r.allow ++ ")"

/-- Render the auth logic template for one stage of one query pipeline. -/
def renderAuthLogic (defaultAuthentication stage : String) (rules : List AuthRule) :
    LogicTemplate :=
  { referencedFields := referencedFieldsOfRules rules
  , text := "## " ++ stage ++ " stage, default provider " ++ defaultAuthentication ++ " ##\n"
      ++ (rules.map renderRule).foldl (fun a b => a ++ b ++ "\n") "" }

/-- The resolver pipeline stages the auth transformer contributes to. -/
def authStages : List String := ["auth", "postAuth"]

/-- The auth transformer's `generateResolvers` contributions: for every
`@model` type carrying `@auth` rules, one entry per generated query field and
per auth stage, appended through `addPipelineEntry`. -/
def generateAuthResolvers (defaultAuthentication : String) (schema : List TypeDef)
    (acc₀ : List AccEntry) : List AccEntry :=
  schema.foldl
    (fun acc ty =>
      if ty.hasModel && !ty.typeAuthRules.isEmpty then
        (queryFieldsForModel ty).foldl
          (fun acc q =>
            authStages.foldl
              (fun acc s =>
                (addPipelineEntry acc "Query" q s "AuthTransformer"
                  (renderAuthLogic defaultAuthentication s ty.typeAuthRules)).1)
              acc)
          acc
      else acc)
    acc₀

/-! ## Directive validation and strategy check -/

/-- Modelled from the spec: Directive Registry validation (section 4.2), not
under `src/`: every directive used must resolve to a registered name; failures
are collected as (location, message) pairs over the whole document. -/
def validateDirectives (registered : List String) (schema : List TypeDef) :
    List (String × String) :=
  schema.flatMap fun ty =>
    (ty.directives.filter (fun d => !(registered.contains d.name))).map
      (fun d => (ty.name, "Unknown directive @" ++ d.name))

/-- Modelled from the spec: the `@model` types for which the supplied
datasource strategy mapping has no entry (section 3: absence of a mapping for
a `@model` type is an error). -/
def missingStrategyTypes (strategies : List (String × DataSourceStrategy))
    (schema : List TypeDef) : List String :=
  (schema.filter (fun ty => ty.hasModel && (strategies.lookup ty.name).isNone)).map
    TypeDef.name

/-- The ordered transformer registration list of the in-repo tests, each
transformer paired with the directive it owns. -/
def transformerRegistration : List (String × String) :=
  [("ModelTransformer", "model"), ("AuthTransformer", "auth")]

/-- Trace of the per-node hooks invoked during `PerNodeTransform` (spec
section 4.4): for each transformer in registration order, one
`onTypeDefinition` invocation per type carrying its owned directive. -/
def perNodeTrace (schema : List TypeDef) : List String :=
  transformerRegistration.flatMap fun tr =>
    (schema.filter (fun ty => ty.directives.any (fun d => d.name == tr.2))).map
      (fun ty => tr.1 ++ ".onTypeDefinition." ++ ty.name)

/-- The model transformer's `transformSchema` hook: appends a `Query` type
holding the generated get/list fields for every `@model` type. -/
def transformSchemaStep (schema : List TypeDef) : List TypeDef :=
  schema ++ [{ name := "Query"
             , fields := (schema.filter TypeDef.hasModel).flatMap fun ty =>
                 [ ⟨getQueryName ty.name, ty.name, false, false⟩
                 , ⟨listQueryName ty.name, ty.name, true, false⟩ ]
             , directives := [] }]

/-- Serialize a schema document back to SDL-like text. -/
def serializeSchema (schema : List TypeDef) : String :=
  schema.foldl
    (fun acc ty =>
      acc ++ "type " ++ ty.name ++ "\n"
        ++ ty.fields.foldl (fun a f => a ++ "  " ++ f.name ++ ": " ++ f.typeRef ++ "\n") "")
    ""

/-! ## Pipeline orchestrator -/

/-- The error taxonomy of the pipeline (spec section 7), restricted to the
variants the claims exercise. -/
inductive TransformError where
  | validationError (errors : List (String × String)) : TransformError
  | configurationError (typeName : String) : TransformError
deriving DecidableEq, Repr

/-- The shared mutable transformer context (spec section 3): the evolving
schema, the resolver accumulator, and the trace of invoked transformer hooks. -/
structure Context where
  schema : List TypeDef
  accumulator : List AccEntry
  hookTrace : List String
deriving DecidableEq, Repr

/-- The context at the start of a run: parsed input schema, empty accumulator,
no hook invoked yet. -/
def initContext (input : TransformInput) : Context :=
  ⟨input.schema, [], []⟩

/-- The output of a successful run (spec section 6): transformed schema text,
the serialized resolver map, and the structured accumulator entries it was
produced from. -/
structure TransformOutput where
  schemaText : String
  resolvers : List (String × String)
  entries : List AccEntry
deriving DecidableEq, Repr

/-- Modelled from the spec: the pipeline orchestrator (section 4.4), not under
`src/`. Directive validation gates everything: on any validation error the run
fails with the untouched initial context and no transformer hook is invoked.
The datasource strategy check then fails the run with a `ConfigurationError`
naming a strategy-less `@model` type before any resolver entry is accumulated.
Otherwise the per-node hooks, `transformSchema` and `generateResolvers` stages
run in registration order and the accumulator is finalized into the resolver
map. -/
def runPipeline (input : TransformInput) :
    Context × Except TransformError TransformOutput :=
  let ctx₀ := initContext input
  let errs := validateDirectives input.registeredDirectives input.schema
  if errs.isEmpty then
    match missingStrategyTypes input.modelToDatasourceMap input.schema with
    | typeName :: _ => (ctx₀, .error (.configurationError typeName))
    | [] =>
      let trace := perNodeTrace input.schema
      let schema₁ := transformSchemaStep input.schema
      let acc := generateAuthResolvers input.defaultAuthentication input.schema []
      (⟨schema₁, acc, trace⟩,
       .ok { schemaText := serializeSchema schema₁
           , resolvers := finalize acc
           , entries := acc })
  else (ctx₀, .error (.validationError errs))

/-- The resolver map of a pipeline run: empty when the run failed (a failed
run emits no partial output). -/
def resolversOfRun (r : Context × Except TransformError TransformOutput) :
    List (String × String) :=
  match r.2 with
  | .ok out => out.resolvers
  | .error _ => []

/-- The structured accumulator entries of a pipeline run; empty on failure. -/
def entriesOfRun (r : Context × Except TransformError TransformOutput) :
    List AccEntry :=
  match r.2 with
  | .ok out => out.entries
  | .error _ => []

/-! ## The AmplifyGraphqlApi construct

From `src/unnamed/part_001`: the `AmplifyGraphqlApi` constructor first runs
`validateNoOtherAmplifyGraphqlApiInStack`, then resolves the
`amplifyEnvironmentName` context value (default `'NONE'`) and rejects values
longer than 8 characters, and only then invokes `executeTransform`. -/

/-- A node of the root stack's construct tree, identified by its construct
path and flagged when it is an `AmplifyGraphqlApi` instance.

Modelled from the spec: `walkAndProcessNodes` and `getStackForScope` (from
`./internal/construct-tree`, not under `src/`) walk every node of the root
stack's construct tree; the tree is represented here by the list of nodes the
walk visits. -/
structure StackNode where
  path : String
  isAmplifyGraphqlApi : Bool
deriving DecidableEq, Repr

/-- From `src/unnamed/part_001` (`validateNoOtherAmplifyGraphqlApiInStack`):
walk the root stack's nodes and fail when any `AmplifyGraphqlApi` other than
the construct under creation is found. -/
def validateNoOtherAmplifyGraphqlApiInStack (rootStack : List StackNode)
    (selfPath : String) : Except String Unit :=
  let wasOtherAmplifyGraphlApiFound :=
    rootStack.any (fun n => n.isAmplifyGraphqlApi && n.path != selfPath)
  if wasOtherAmplifyGraphlApiFound then
    .error "Only one AmplifyGraphqlApi is expected in a stack"
  else .ok ()

/-- From `src/unnamed/part_001` (`AmplifyGraphqlApi.constructor`): validate
stack uniqueness, resolve `amplifyEnvironmentName` from context with default
`'NONE'`, reject names longer than 8 characters, then execute the transform.
A thrown error is an `Except.error`; `Except.ok` carries the pipeline run that
`executeTransform` performed. -/
def amplifyGraphqlApiNew (rootStack : List StackNode) (selfPath : String)
    (amplifyEnvironmentNameContext : Option String) (input : TransformInput) :
    Except String (Context × Except TransformError TransformOutput) :=
  match validateNoOtherAmplifyGraphqlApiInStack rootStack selfPath with
  | .error msg => .error msg
  | .ok () =>
    let amplifyEnvironmentName := amplifyEnvironmentNameContext.getD "NONE"
    if amplifyEnvironmentName.length > 8 then
      .error ("or cdk --context env must have a length <= 8, found "
        ++ amplifyEnvironmentName)
    else
      .ok (runPipeline input)

/-! ## Searchable transformer instance types

From `src/packages/amplify-graphql-searchable-transformer/src/constants.ts`. -/

/-- The base elasticsearch instance type list (`elasticsearch_instance_types`
in `constants.ts`). -/
def elasticsearch_instance_types : List String := [
  "t2.small.elasticsearch",
  "t2.medium.elasticsearch",
  "c4.large.elasticsearch",
  "c4.xlarge.elasticsearch",
  "c4.2xlarge.elasticsearch",
  "c4.4xlarge.elasticsearch",
  "c4.8xlarge.elasticsearch",
  "m3.medium.elasticsearch",
  "m3.large.elasticsearch",
  "m3.xlarge.elasticsearch",
  "m3.2xlarge.elasticsearch",
  "m4.large.elasticsearch",
  "m4.xlarge.elasticsearch",
  "m4.2xlarge.elasticsearch",
  "m4.4xlarge.elasticsearch",
  "m4.10xlarge.elasticsearch",
  "r3.large.elasticsearch",
  "r3.xlarge.elasticsearch",
  "r3.2xlarge.elasticsearch",
  "r3.4xlarge.elasticsearch",
  "r3.8xlarge.elasticsearch",
  "r4.large.elasticsearch",
  "r4.xlarge.elasticsearch",
  "r4.2xlarge.elasticsearch",
  "r4.4xlarge.elasticsearch",
  "r4.8xlarge.elasticsearch",
  "r4.16xlarge.elasticsearch",
  "i2.xlarge.elasticsearch",
  "i2.2xlarge.elasticsearch",
  "i3.large.elasticsearch",
  "i3.xlarge.elasticsearch",
  "i3.2xlarge.elasticsearch",
  "i3.4xlarge.elasticsearch",
  "i3.8xlarge.elasticsearch",
  "i3.16xlarge.elasticsearch",
  "r6gd.12xlarge.elasticsearch",
  "ultrawarm1.xlarge.elasticsearch",
  "m5.4xlarge.elasticsearch",
  "t3.xlarge.elasticsearch",
  "m6g.xlarge.elasticsearch",
  "m6g.12xlarge.elasticsearch",
  "t2.micro.elasticsearch",
  "r6gd.16xlarge.elasticsearch",
  "d2.2xlarge.elasticsearch",
  "t3.micro.elasticsearch",
  "m5.large.elasticsearch",
  "d2.4xlarge.elasticsearch",
  "t3.small.elasticsearch",
  "c5.2xlarge.elasticsearch",
  "c6g.2xlarge.elasticsearch",
  "d2.8xlarge.elasticsearch",
  "c5.4xlarge.elasticsearch",
  "t4g.medium.elasticsearch",
  "c6g.4xlarge.elasticsearch",
  "c6g.xlarge.elasticsearch",
  "c6g.12xlarge.elasticsearch",
  "c5.xlarge.elasticsearch",
  "c5.large.elasticsearch",
  "t4g.small.elasticsearch",
  "c5.9xlarge.elasticsearch",
  "c6g.8xlarge.elasticsearch",
  "c6g.large.elasticsearch",
  "d2.xlarge.elasticsearch",
  "ultrawarm1.medium.elasticsearch",
  "t3.nano.elasticsearch",
  "t3.medium.elasticsearch",
  "m6g.2xlarge.elasticsearch",
  "t3.2xlarge.elasticsearch",
  "c5.18xlarge.elasticsearch",
  "m6g.4xlarge.elasticsearch",
  "r6gd.2xlarge.elasticsearch",
  "m5.xlarge.elasticsearch",
  "r6gd.4xlarge.elasticsearch",
  "r6g.2xlarge.elasticsearch",
  "r5.2xlarge.elasticsearch",
  "m5.12xlarge.elasticsearch",
  "m6g.8xlarge.elasticsearch",
  "m6g.large.elasticsearch",
  "m5.24xlarge.elasticsearch",
  "r6g.4xlarge.elasticsearch",
  "t3.large.elasticsearch",
  "r5.4xlarge.elasticsearch",
  "ultrawarm1.large.elasticsearch",
  "r6gd.8xlarge.elasticsearch",
  "r6gd.large.elasticsearch",
  "r6g.xlarge.elasticsearch",
  "r5.xlarge.elasticsearch",
  "r6g.12xlarge.elasticsearch",
  "r5.12xlarge.elasticsearch",
  "m5.2xlarge.elasticsearch",
  "r6gd.xlarge.elasticsearch",
  "r6g.8xlarge.elasticsearch",
  "r6g.large.elasticsearch",
  "r5.24xlarge.elasticsearch",
  "r5.large.elasticsearch"]

/-- Replace the first occurrence of `pat` in a character list by `repl`,
modelling the JavaScript `String.prototype.replace` with a string pattern
(first occurrence only; every base instance type contains the pattern once). -/
def replaceFirstChars (pat repl : List Char) : List Char → List Char
  | [] => []
  | c :: cs =>
    if pat.isPrefixOf (c :: cs) then repl ++ (c :: cs).drop pat.length
    else c :: replaceFirstChars pat repl cs

/-- `s.replace(pat, repl)` of JavaScript: replace the first occurrence. -/
def jsReplace (s pat repl : String) : String :=
  ⟨replaceFirstChars pat.data repl.data s.data⟩

/-- From `constants.ts`: the base list concatenated with each base element
with `elasticsearch` replaced by `search`. -/
def ALLOWABLE_SEARCHABLE_INSTANCE_TYPES : List String :=
  elasticsearch_instance_types ++
    elasticsearch_instance_types.map (fun type => jsReplace type "elasticsearch" "search")

/-! ## Concrete transformation scenarios from the in-repo tests -/

/-- The `allow: public` auth rule of the apiKey test (`src/unnamed/part_000`). -/
def publicRule : AuthRule :=
  { allow := "public", ownerField := none, groupsField := none, groups := [], provider := none }

/-- The `Post` type of the apiKey test schema:
`type Post @model @auth(rules: [\x7ballow: public\x7d]) ...`. -/
def postTypeDef : TypeDef :=
  { name := "Post"
  , fields := [⟨"id", "ID", false, true⟩, ⟨"title", "String", false, true⟩]
  , directives := [⟨"model", []⟩, ⟨"auth", [publicRule]⟩] }

/-- The apiKey test transform input (`src/unnamed/part_000`, first test):
model + auth transformers, `Post` mapped to a MySQL strategy, default
API-key authentication. -/
def apiKeyPostInput : TransformInput :=
  { schema := [postTypeDef]
  , registeredDirectives := ["model", "auth"]
  , modelToDatasourceMap := [("Post", ⟨"MySQL", false⟩)]
  , defaultAuthentication := "API_KEY" }

/-- The `allow: owner, ownerField: "owners"` rule of the PostOwners scenario. -/
def ownerOwnersRule : AuthRule :=
  { allow := "owner", ownerField := some "owners", groupsField := none, groups := []
  , provider := none }

/-- The `PostOwners` transform input (`src/unnamed/part_000`, cognito test):
owner-based auth with an explicit `ownerField` naming the `owners` field. -/
def postOwnersInput : TransformInput :=
  { schema := [{ name := "PostOwners"
               , fields := [⟨"id", "ID", false, true⟩, ⟨"title", "String", false, true⟩,
                            ⟨"owners", "String", true, false⟩]
               , directives := [⟨"model", []⟩, ⟨"auth", [ownerOwnersRule]⟩] }]
  , registeredDirectives := ["model", "auth"]
  , modelToDatasourceMap := [("PostOwners", ⟨"MySQL", false⟩)]
  , defaultAuthentication := "AMAZON_COGNITO_USER_POOLS" }

/-- A `@model` type transformed without any datasource strategy entry. -/
def postNoStrategyInput : TransformInput :=
  { schema := [postTypeDef]
  , registeredDirectives := ["model", "auth"]
  , modelToDatasourceMap := []
  , defaultAuthentication := "API_KEY" }

/-- A schema using a directive name absent from the directive registry. -/
def bogusDirectiveInput : TransformInput :=
  { schema := [{ name := "Post"
               , fields := [⟨"id", "ID", false, true⟩]
               , directives := [⟨"model", []⟩, ⟨"bogus", []⟩] }]
  , registeredDirectives := ["model", "auth"]
  , modelToDatasourceMap := [("Post", ⟨"MySQL", false⟩)]
  , defaultAuthentication := "API_KEY" }

/-- The fields referenced by the auth-stage logic generated for one query
field of a pipeline run. -/
def authFieldRefs (r : Context × Except TransformError TransformOutput)
    (queryField : String) : List String :=
  ((entriesOfRun r).filter (matchesKey "Query" queryField "auth")).flatMap
    (fun e => e.logic.referencedFields)

/-- A single contribution request, as the auth transformer would make it. -/
def sampleSlotRequest : SlotRequest :=
  ⟨"Query", "getPost", "auth", "AuthTransformer", ⟨[], "sample"⟩⟩

/-! ## Claims -/

/-- C1 (counterexample): the very first contribution to the
(Query, getPost, auth) pipeline is assigned slot index 1 — serialized as the
key `Query.getPost.auth.1.req.vtl` that the in-repo test expects — and not
slot 0 as the claim states. -/
theorem first_contribution_gets_slot_one :
    (addPipelineEntry [] "Query" "getPost" "auth" "AuthTransformer" ⟨[], "logic"⟩).2 = 1 ∧
    serializeKey "Query" "getPost" "auth"
        (addPipelineEntry [] "Query" "getPost" "auth" "AuthTransformer" ⟨[], "logic"⟩).2
      = "Query.getPost.auth.1.req.vtl" ∧
    (addPipelineEntry [] "Query" "getPost" "auth" "AuthTransformer" ⟨[], "logic"⟩).2 ≠ 0 := by
  refine ⟨rfl, by decide, by decide⟩

/-- C1 (amended): for every sequence of `addPipelineEntry` contributions and
every (Type, Field, Stage), the slot indices assigned across all contributing
transformers are exactly the consecutive integers 1, 2, ..., n in contribution
order — a strictly increasing sequence starting at 1, regardless of which
transformer makes each call. -/
theorem slot_assignment_monotonic_from_one (reqs : List SlotRequest) (t f s : String) :
    slotsFor (runRequests reqs) t f s
      = List.range' 1 (countFor (runRequests reqs) t f s) ∧
    List.Pairwise (· < ·) (slotsFor (runRequests reqs) t f s) := by
  refine ⟨slotInv_runRequests reqs t f s, ?_⟩
  rw [slotInv_runRequests reqs t f s]
  exact List.pairwise_lt_range' 1 _

/-- C2: transforming
`type Post @model @auth(rules: [\x7ballow: public\x7d]) ...` with the model and
auth transformers under default API-key auth yields a resolver map with
non-empty entries at the keys `Query.getPost.auth.1.req.vtl` and
`Query.listPosts.auth.1.req.vtl`. -/
theorem apiKey_auth_rule_coverage :
    ((resolversOfRun (runPipeline apiKeyPostInput)).lookup
        "Query.getPost.auth.1.req.vtl").isSome = true ∧
    (resolversOfRun (runPipeline apiKeyPostInput)).lookup
        "Query.getPost.auth.1.req.vtl" ≠ some "" ∧
    ((resolversOfRun (runPipeline apiKeyPostInput)).lookup
        "Query.listPosts.auth.1.req.vtl").isSome = true ∧
    (resolversOfRun (runPipeline apiKeyPostInput)).lookup
        "Query.listPosts.auth.1.req.vtl" ≠ some "" := by
  refine ⟨by decide, by decide, by decide, by decide⟩

/-- C3: for the `PostOwners` scenario (`@auth` owner rule with
`ownerField: "owners"`), the auth logic generated for the `getPostOwners` and
`listPostOwners` queries references exactly the `owners` field declared by
`ownerField`, and not a default `owner` field. -/
theorem postOwners_auth_references_owners_field :
    authFieldRefs (runPipeline postOwnersInput) "getPostOwners" = ["owners"] ∧
    authFieldRefs (runPipeline postOwnersInput) "listPostOwners" = ["owners"] ∧
    "owner" ∉ authFieldRefs (runPipeline postOwnersInput) "getPostOwners" ∧
    "owner" ∉ authFieldRefs (runPipeline postOwnersInput) "listPostOwners" := by
  refine ⟨by decide, by decide, by decide, by decide⟩

/-- C4: every entry `finalize` produces carries the key obtained by the single
serialization function `serializeKey` from the entry's structured
(Type, field, stage, slotIndex) tuple, in the fixed
`Type.field.stage.slotIndex.req.vtl` format; within every (Type, Field, Stage)
the slots appear in strictly ascending order; and the serialization of the
tuple (Query, getPost, auth, 1) is exactly the stable key
`Query.getPost.auth.1.req.vtl` consumed by external tooling. -/
theorem finalize_serializes_structured_keys (reqs : List SlotRequest) (t f s : String) :
    (∀ p ∈ finalize (runRequests reqs),
      ∃ e ∈ runRequests reqs,
        p = (serializeKey e.typeName e.fieldName e.stage e.slot, e.logic.text)) ∧
    List.Pairwise (· < ·) (slotsFor (runRequests reqs) t f s) ∧
    serializeKey "Query" "getPost" "auth" 1 = "Query.getPost.auth.1.req.vtl" := by
  refine ⟨?_, ?_, by decide⟩
  · intro p hp
    obtain ⟨e, he, hpe⟩ := List.mem_map.mp hp
    exact ⟨e, he, hpe.symm⟩
  · rw [slotInv_runRequests reqs t f s]
    exact List.pairwise_lt_range' 1 _

/-- C4 (witness): instantiated on a single concrete contribution, whose
finalized pair is traced back to its structured entry. -/
theorem finalize_serializes_structured_keys_witness :
    ∃ e ∈ runRequests [sampleSlotRequest],
      ("Query.getPost.auth.1.req.vtl", "sample")
        = (serializeKey e.typeName e.fieldName e.stage e.slot, e.logic.text) :=
  (finalize_serializes_structured_keys [sampleSlotRequest] "Query" "getPost" "auth").1
    ("Query.getPost.auth.1.req.vtl", "sample") (by decide)

/-- C5: when a schema whose directives all validate contains a `@model` type
with no entry in the supplied datasource strategy mapping, the pipeline fails
with a `ConfigurationError` naming a strategy-less `@model` type, and the run
emits zero resolver entries (the accumulator stays empty, no partial output). -/
theorem missing_strategy_fails_with_configuration_error (input : TransformInput)
    (hval : validateDirectives input.registeredDirectives input.schema = [])
    (ty : TypeDef) (hmem : ty ∈ input.schema) (hm : ty.hasModel = true)
    (hts : input.modelToDatasourceMap.lookup ty.name = none) :
    ∃ tn, (runPipeline input).2 = .error (.configurationError tn) ∧
      (∃ u ∈ input.schema, u.name = tn ∧ u.hasModel = true ∧
        input.modelToDatasourceMap.lookup u.name = none) ∧
      resolversOfRun (runPipeline input) = [] ∧
      (runPipeline input).1.accumulator = [] := by
  have hmemName : ty.name ∈ missingStrategyTypes input.modelToDatasourceMap input.schema :=
    List.mem_map_of_mem _ (List.mem_filter.mpr ⟨hmem, by simp [hm, hts]⟩)
  cases hms : missingStrategyTypes input.modelToDatasourceMap input.schema with
  | nil =>
    rw [hms] at hmemName
    exact absurd hmemName (List.not_mem_nil _)
  | cons tn rest =>
    have hrun : runPipeline input =
        (initContext input, .error (.configurationError tn)) := by
      simp [runPipeline, hval, hms]
    have htn : tn ∈ missingStrategyTypes input.modelToDatasourceMap input.schema := by
      rw [hms]
      exact List.mem_cons_self _ _
    obtain ⟨u, hu, hname⟩ := List.mem_map.mp htn
    have hu' := List.mem_filter.mp hu
    have hcond := hu'.2
    simp only [Bool.and_eq_true] at hcond
    refine ⟨tn, by rw [hrun], ⟨u, hu'.1, hname, ?_, ?_⟩,
      by simp [resolversOfRun, hrun], by simp [hrun, initContext]⟩
    · exact hcond.1
    · exact Option.isNone_iff_eq_none.mp hcond.2

/-- C5 (witness): the `Post` `@model` type transformed with an empty
datasource strategy mapping. -/
theorem missing_strategy_fails_witness :
    (validateDirectives postNoStrategyInput.registeredDirectives
        postNoStrategyInput.schema = []) ∧
    postTypeDef ∈ postNoStrategyInput.schema ∧
    postTypeDef.hasModel = true ∧
    postNoStrategyInput.modelToDatasourceMap.lookup postTypeDef.name = none ∧
    (∃ tn, (runPipeline postNoStrategyInput).2 = .error (.configurationError tn) ∧
      (∃ u ∈ postNoStrategyInput.schema, u.name = tn ∧ u.hasModel = true ∧
        postNoStrategyInput.modelToDatasourceMap.lookup u.name = none) ∧
      resolversOfRun (runPipeline postNoStrategyInput) = [] ∧
      (runPipeline postNoStrategyInput).1.accumulator = []) :=
  ⟨by decide, by decide, by decide, by decide,
    missing_strategy_fails_with_configuration_error postNoStrategyInput (by decide)
      postTypeDef (by decide) (by decide) (by decide)⟩

/-- C6: a schema using a directive name not present in the directive registry
fails validation: the run ends with a `ValidationError` carrying a non-empty
error list, and the context is left untouched — the schema document is the
input schema, the resolver accumulator is empty, and no transformer hook was
invoked (empty hook trace). -/
theorem unknown_directive_fails_before_hooks (input : TransformInput)
    (h : ∃ ty ∈ input.schema, ∃ d ∈ ty.directives,
          input.registeredDirectives.contains d.name = false) :
    (∃ errs, errs ≠ [] ∧ (runPipeline input).2 = .error (.validationError errs)) ∧
    (runPipeline input).1.schema = input.schema ∧
    (runPipeline input).1.accumulator = [] ∧
    (runPipeline input).1.hookTrace = [] := by
  obtain ⟨ty, hty, d, hd, hreg⟩ := h
  have hmem : (ty.name, "Unknown directive @" ++ d.name)
      ∈ validateDirectives input.registeredDirectives input.schema := by
    unfold validateDirectives
    exact List.mem_flatMap.mpr
      ⟨ty, hty, List.mem_map_of_mem _ (List.mem_filter.mpr ⟨hd, by simpa using hreg⟩)⟩
  have hne : validateDirectives input.registeredDirectives input.schema ≠ [] :=
    List.ne_nil_of_mem hmem
  have hbool : (validateDirectives input.registeredDirectives input.schema).isEmpty
      = false := by
    cases hv : validateDirectives input.registeredDirectives input.schema with
    | nil => exact absurd hv hne
    | cons a l => rfl
  have hrun : runPipeline input =
      (initContext input,
       .error (.validationError
         (validateDirectives input.registeredDirectives input.schema))) := by
    simp [runPipeline, hbool]
  exact ⟨⟨validateDirectives input.registeredDirectives input.schema, hne, by rw [hrun]⟩,
    by simp [hrun, initContext], by simp [hrun, initContext], by simp [hrun, initContext]⟩

/-- C6 (witness): a schema carrying the unregistered directive `@bogus`. -/
theorem unknown_directive_fails_before_hooks_witness :
    (∃ ty ∈ bogusDirectiveInput.schema, ∃ d ∈ ty.directives,
        bogusDirectiveInput.registeredDirectives.contains d.name = false) ∧
    ((∃ errs, errs ≠ [] ∧
        (runPipeline bogusDirectiveInput).2 = .error (.validationError errs)) ∧
      (runPipeline bogusDirectiveInput).1.schema = bogusDirectiveInput.schema ∧
      (runPipeline bogusDirectiveInput).1.accumulator = [] ∧
      (runPipeline bogusDirectiveInput).1.hookTrace = []) :=
  ⟨by decide, unknown_directive_fails_before_hooks bogusDirectiveInput (by decide)⟩

/-- The output schema text of a pipeline run; empty on failure. -/
def schemaTextOfRun (r : Context × Except TransformError TransformOutput) : String :=
  match r.2 with
  | .ok out => out.schemaText
  | .error _ => ""

/-- C7: the pipeline is a deterministic function of its input: two runs over
the same input SDL, transformer registration order and auth configuration
yield identical results — in particular byte-identical output schema text and
byte-identical resolver maps. -/
theorem pipeline_runs_reproducible (i₁ i₂ : TransformInput) (h : i₁ = i₂) :
    runPipeline i₁ = runPipeline i₂ ∧
    schemaTextOfRun (runPipeline i₁) = schemaTextOfRun (runPipeline i₂) ∧
    resolversOfRun (runPipeline i₁) = resolversOfRun (runPipeline i₂) := by
  subst h
  exact ⟨rfl, rfl, rfl⟩

/-- C7 (witness): two runs of the apiKey scenario coincide. -/
theorem pipeline_runs_reproducible_witness :
    runPipeline apiKeyPostInput = runPipeline apiKeyPostInput ∧
    schemaTextOfRun (runPipeline apiKeyPostInput)
      = schemaTextOfRun (runPipeline apiKeyPostInput) ∧
    resolversOfRun (runPipeline apiKeyPostInput)
      = resolversOfRun (runPipeline apiKeyPostInput) :=
  pipeline_runs_reproducible apiKeyPostInput apiKeyPostInput rfl

/-- C8: constructing an `AmplifyGraphqlApi` while another `AmplifyGraphqlApi`
exists anywhere in the root stack's construct tree throws
`Only one AmplifyGraphqlApi is expected in a stack`; the check precedes every
transformation step, so the failed construction carries no transform result. -/
theorem only_one_amplify_api_per_stack (rootStack : List StackNode) (selfPath : String)
    (envCtx : Option String) (input : TransformInput)
    (h : ∃ n ∈ rootStack, n.isAmplifyGraphqlApi = true ∧ n.path ≠ selfPath) :
    amplifyGraphqlApiNew rootStack selfPath envCtx input
      = .error "Only one AmplifyGraphqlApi is expected in a stack" := by
  obtain ⟨n, hn, hapi, hne⟩ := h
  have hfound : rootStack.any (fun n => n.isAmplifyGraphqlApi && n.path != selfPath)
      = true :=
    List.any_eq_true.mpr ⟨n, hn, by simp [hapi, hne]⟩
  simp [amplifyGraphqlApiNew, validateNoOtherAmplifyGraphqlApiInStack, hfound]

/-- A root stack containing two AmplifyGraphqlApi constructs. -/
def duplicateApiStack : List StackNode :=
  [⟨"Stack/firstApi", true⟩, ⟨"Stack/secondApi", true⟩]

/-- C8 (witness): a second api constructed into a stack already holding one. -/
theorem only_one_amplify_api_per_stack_witness :
    amplifyGraphqlApiNew duplicateApiStack "Stack/secondApi" none apiKeyPostInput
      = .error "Only one AmplifyGraphqlApi is expected in a stack" :=
  only_one_amplify_api_per_stack duplicateApiStack "Stack/secondApi" none apiKeyPostInput
    ⟨⟨"Stack/firstApi", true⟩, by decide, by decide, by decide⟩

/-- C9: the `AmplifyGraphqlApi` constructor rejects an
`amplifyEnvironmentName` context value longer than 8 characters before
`executeTransform` runs (the failed construction carries no transform result),
and an absent context value defaults to `NONE`, under which construction
proceeds into the transform. -/
theorem amplify_environment_name_length_check (rootStack : List StackNode)
    (selfPath : String) (input : TransformInput) (s : String)
    (hok : validateNoOtherAmplifyGraphqlApiInStack rootStack selfPath = .ok ())
    (hlen : 8 < s.length) :
    amplifyGraphqlApiNew rootStack selfPath (some s) input
      = .error ("or cdk --context env must have a length <= 8, found " ++ s) ∧
    amplifyGraphqlApiNew rootStack selfPath none input = .ok (runPipeline input) := by
  constructor
  · simp [amplifyGraphqlApiNew, hok, hlen]
  · have h4 : ¬ (("NONE" : String).length > 8) := by decide
    simp [amplifyGraphqlApiNew, hok, h4]

/-- A root stack containing exactly the api under construction. -/
def singleApiStack : List StackNode := [⟨"Stack/onlyApi", true⟩]

/-- C9 (witness): the context value `production` (10 characters) is rejected;
an absent context value lets construction reach the transform. -/
theorem amplify_environment_name_length_check_witness :
    amplifyGraphqlApiNew singleApiStack "Stack/onlyApi" (some "production") apiKeyPostInput
      = .error ("or cdk --context env must have a length <= 8, found " ++ "production") ∧
    amplifyGraphqlApiNew singleApiStack "Stack/onlyApi" none apiKeyPostInput
      = .ok (runPipeline apiKeyPostInput) :=
  amplify_environment_name_length_check singleApiStack "Stack/onlyApi" apiKeyPostInput
    "production" rfl (by decide)

/-- C10: `ALLOWABLE_SEARCHABLE_INSTANCE_TYPES` has exactly twice the length of
the base elasticsearch list, and contains every base `.elasticsearch` instance
type together with its variant with `elasticsearch` replaced by `search`. -/
theorem allowable_searchable_instance_types_doubled :
    ALLOWABLE_SEARCHABLE_INSTANCE_TYPES.length
      = 2 * elasticsearch_instance_types.length ∧
    ∀ t ∈ elasticsearch_instance_types,
      t ∈ ALLOWABLE_SEARCHABLE_INSTANCE_TYPES ∧
      jsReplace t "elasticsearch" "search" ∈ ALLOWABLE_SEARCHABLE_INSTANCE_TYPES := by
  constructor
  · simp [ALLOWABLE_SEARCHABLE_INSTANCE_TYPES, Nat.two_mul]
  · intro t ht
    exact ⟨List.mem_append_left _ ht,
      List.mem_append_right _ (List.mem_map_of_mem _ ht)⟩

/-- C10 (witness): the first base instance type and its `.search` variant are
both allowable. -/
theorem allowable_searchable_instance_types_doubled_witness :
    "t2.small.elasticsearch" ∈ ALLOWABLE_SEARCHABLE_INSTANCE_TYPES ∧
    jsReplace "t2.small.elasticsearch" "elasticsearch" "search"
      ∈ ALLOWABLE_SEARCHABLE_INSTANCE_TYPES :=
  allowable_searchable_instance_types_doubled.2 "t2.small.elasticsearch" (by decide)
